import Mathlib

/-!
Shallow embedding of `src/dataset_v1/gpt_data_gen.py`, the synthetic
e-commerce recommendation dataset generator.

Modelling conventions:
* Python's global `random` stream is modelled as a stream `RNG : Nat → ℚ`
  of raw draws together with an explicit cursor (`Nat` position) threaded
  through every sampling function; `Int.fract` maps each raw draw into
  `[0, 1)`, playing the role of `random.random()`.
* Python floats are modelled as exact rationals `ℚ`; `round(x, 2)` is
  modelled by `round2` (round-half-to-even on `x * 100`, like Python).
* `random.choices(pop, weights)[0]` is modelled after CPython: cumulative
  weights and a right-bisect of `u * total` bounded by `len(pop) - 1`.
* The unbounded `while` loop of `gen_user_row` is modelled with explicit
  fuel, returning `none` when the fuel runs out before `RECS_PER_USER`
  distinct products were collected.
-/

namespace GptDataGen

/-- The seeded pseudo-random stream: the `n`-th raw draw of the run. -/
def RNG : Type := Nat → ℚ

/-- One call to `random.random()`: consume the draw at the cursor, mapped
into `[0, 1)`. Returns the value and the advanced cursor. -/
def randomUnit (g : RNG) (i : Nat) : ℚ × Nat :=
  (Int.fract (g i), i + 1)

/-- Cumulative sums, as built by `itertools.accumulate(weights)`. -/
def cumWeights (w : List ℚ) : List ℚ :=
  (w.foldl (fun acc x => (acc.headD 0 + x) :: acc) []).reverse

/-- `bisect.bisect_right l x`: the number of entries `≤ x`
(for the sorted lists it is applied to). -/
def bisectRight (l : List ℚ) (x : ℚ) : Nat :=
  (l.takeWhile (fun c => decide (c ≤ x))).length

/-- `random.choices(pop, weights=w)[0]` (CPython): draw `u`, compute the
cumulative weights, and index `pop` at
`bisect(cum_weights, u * total, 0, len(pop) - 1)`. `d` is a default for
the (never exercised) empty-population case. -/
def choices1 {α : Type} (pop : List α) (w : List ℚ) (d : α) (g : RNG) (i : Nat) :
    α × Nat :=
  let u := (randomUnit g i).1
  let cum := cumWeights w
  let total := cum.getLastD 0
  let hi := pop.length - 1
  let idx := bisectRight (cum.take hi) (u * total)
  (pop.getD idx d, (randomUnit g i).2)

/-- `random.randint(a, b)`: a uniform integer in `[a, b]`, modelled as
`a + ⌊u * (b - a + 1)⌋` for a unit draw `u`. -/
def randint (a b : ℤ) (g : RNG) (i : Nat) : ℤ × Nat :=
  let u := (randomUnit g i).1
  (a + ⌊u * ((b : ℚ) - (a : ℚ) + 1)⌋, (randomUnit g i).2)

/-- `random.choice(seq)`: a uniformly chosen element, modelled as the
element at index `⌊u * len⌋`. `d` is a default for the empty case. -/
def choice {α : Type} (l : List α) (d : α) (g : RNG) (i : Nat) : α × Nat :=
  let u := (randomUnit g i).1
  (l.getD (⌊u * (l.length : ℚ)⌋).toNat d, (randomUnit g i).2)

/-- `random.uniform(a, b) = a + (b - a) * random()`. -/
def uniform (a b : ℚ) (g : RNG) (i : Nat) : ℚ × Nat :=
  (a + (b - a) * (randomUnit g i).1, (randomUnit g i).2)

/-- Python's `round` on a value scaled to an integer position:
round half to even. -/
def pyRound (q : ℚ) : ℤ :=
  if q - (⌊q⌋ : ℚ) < 1/2 then ⌊q⌋
  else if 1/2 < q - (⌊q⌋ : ℚ) then ⌊q⌋ + 1
  else if ⌊q⌋ % 2 = 0 then ⌊q⌋ else ⌊q⌋ + 1

/-- `round(x, 2)`. -/
def round2 (q : ℚ) : ℚ :=
  (pyRound (q * 100) : ℚ) / 100

/-! ## Configuration section (a 1:1 transcription of the Python tables) -/

def ROWS_DEFAULT : Nat := 100000
def RECS_PER_USER : Nat := 10

structure AgeBandInfo where
  name : String
  lo : ℤ
  hi : ℤ
  p : ℚ
deriving Repr, DecidableEq

def AGE_BANDS : List AgeBandInfo :=
  [⟨"18-25", 18, 25, 0.25⟩,
   ⟨"26-35", 26, 35, 0.35⟩,
   ⟨"36-45", 36, 45, 0.25⟩,
   ⟨"46-60", 46, 60, 0.12⟩,
   ⟨"60+",   61, 75, 0.03⟩]

def GENDERS : List (String × ℚ) :=
  [("Male", 0.52), ("Female", 0.48)]

structure TierInfo where
  name : String
  cities : List String
  states : List String
  price_weights : List ℚ
deriving Repr, DecidableEq

def TIERS : List TierInfo :=
  [⟨"Tier1",
    ["Mumbai", "Delhi", "Bangalore", "Hyderabad", "Chennai",
     "Pune", "Kolkata", "Ahmedabad", "Surat", "Jaipur"],
    ["Maharashtra", "Delhi", "Karnataka", "Telangana", "Tamil Nadu",
     "Maharashtra", "West Bengal", "Gujarat", "Gujarat", "Rajasthan"],
    [0.20, 0.35, 0.28, 0.17]⟩,
   ⟨"Tier2",
    ["Lucknow", "Kanpur", "Nagpur", "Indore", "Bhopal",
     "Visakhapatnam", "Patna", "Vadodara", "Coimbatore", "Agra"],
    ["Uttar Pradesh", "Uttar Pradesh", "Maharashtra", "Madhya Pradesh",
     "Madhya Pradesh", "Andhra Pradesh", "Bihar", "Gujarat",
     "Tamil Nadu", "Uttar Pradesh"],
    [0.30, 0.40, 0.22, 0.08]⟩,
   ⟨"Tier3",
    ["Rajkot", "Meerut", "Nashik", "Faridabad", "Ghaziabad",
     "Jabalpur", "Ranchi", "Mysore", "Jodhpur", "Kota"],
    ["Gujarat", "Uttar Pradesh", "Maharashtra", "Haryana",
     "Uttar Pradesh", "Madhya Pradesh", "Jharkhand", "Karnataka",
     "Rajasthan", "Rajasthan"],
    [0.43, 0.42, 0.12, 0.03]⟩]

def TIER_PROBS : List ℚ := [0.40, 0.35, 0.25]

def PRICE_BUCKETS : List String := ["Budget", "Mid", "Premium", "Luxury"]

def PRICE_RANGES : List (String × ℤ × ℤ) :=
  [("Budget",  (100, 1000)),
   ("Mid",     (1001, 5000)),
   ("Premium", (5001, 15000)),
   ("Luxury",  (15001, 60000))]

structure CategoryInfo where
  name : String
  items : List String
  brands : List String
deriving Repr, DecidableEq

def CATEGORIES : List CategoryInfo :=
  [⟨"Electronics",
    ["Smartphone", "Laptop", "Headphones", "Smart Watch", "Tablet", "Camera"],
    ["Samsung", "Apple", "OnePlus", "Xiaomi", "Realme", "Vivo",
     "HP", "Dell", "Lenovo", "Sony", "JBL", "Boat"]⟩,
   ⟨"Fashion",
    ["T-shirt", "Jeans", "Kurta", "Saree", "Dress", "Footwear", "Ethnic Wear"],
    ["H&M", "Zara", "Nike", "Adidas", "Puma", "Fabindia", "W", "Biba",
     "Allen Solly", "Van Heusen", "Levi's", "Pepe Jeans"]⟩,
   ⟨"Home",
    ["Furniture", "Kitchen Appliance", "Home Decor", "Bedding", "Storage Solution"],
    ["IKEA", "Godrej", "Whirlpool", "LG", "Prestige", "Pigeon",
     "Home Centre", "Fabfurnish"]⟩,
   ⟨"Beauty",
    ["Skincare", "Makeup", "Haircare", "Perfume", "Grooming Product"],
    ["Lakme", "Maybelline", "L'Oreal", "Nivea", "Dove", "Garnier",
     "Biotique", "Mamaearth", "Nykaa", "Sugar Cosmetics"]⟩,
   ⟨"Books",
    ["Fiction Book", "Non-fiction Book", "Academic Book",
     "Self-help Book", "Children's Book"],
    ["Penguin", "Harper Collins", "Classmate", "Reynolds", "Parker"]⟩,
   ⟨"Sports",
    ["Gym Equipment", "Sportswear", "Outdoor Gear", "Yoga Accessory"],
    ["Nike", "Adidas", "Puma", "Reebok", "Decathlon", "Nivia", "Cosco"]⟩,
   ⟨"Grocery",
    ["Snack", "Beverage", "Organic Product", "Staple"],
    ["Britannia", "Parle", "Nestle", "Amul", "Tata", "ITC",
     "Patanjali", "Organic India"]⟩]

def AGE_PREFS : List (String × List (String × ℚ)) :=
  [("18-25", [("Electronics", 0.30), ("Fashion", 0.40), ("Beauty", 0.20),
              ("Books", 0.10)]),
   ("26-35", [("Electronics", 0.25), ("Fashion", 0.30), ("Home", 0.20),
              ("Sports", 0.15), ("Beauty", 0.10)]),
   ("36-45", [("Home", 0.35), ("Electronics", 0.20), ("Fashion", 0.20),
              ("Grocery", 0.15), ("Sports", 0.10)]),
   ("46-60", [("Home", 0.30), ("Grocery", 0.25), ("Electronics", 0.15),
              ("Fashion", 0.15), ("Books", 0.15)]),
   ("60+",   [("Grocery", 0.40), ("Home", 0.25), ("Books", 0.20),
              ("Electronics", 0.10), ("Beauty", 0.05)])]

def GENDER_PREFS : List (String × List (String × ℚ)) :=
  [("Male",   [("Electronics", 0.30), ("Sports", 0.20), ("Fashion", 0.25),
               ("Home", 0.15), ("Books", 0.10)]),
   ("Female", [("Fashion", 0.35), ("Beauty", 0.25), ("Home", 0.20),
               ("Electronics", 0.10), ("Books", 0.10)])]

/-! ## Helper functions -/

/-- `TIERS[tier]`: look up a tier's record by name. The Python dict lookup
raises `KeyError` on a missing key; the default is never reached because
tiers are always drawn from the key list. -/
def lookupTier (tier : String) : TierInfo :=
  (TIERS.find? (fun t => t.name = tier)).getD ⟨"", [], [], []⟩

/-- `PRICE_RANGES[bucket]`. -/
def lookupRange (bucket : String) : ℤ × ℤ :=
  ((PRICE_RANGES.find? (fun r => r.1 = bucket)).getD ("", (0, 0))).2

/-- `CATEGORIES[category]`. -/
def lookupCategory (category : String) : CategoryInfo :=
  (CATEGORIES.find? (fun c => c.name = category)).getD ⟨"", [], []⟩

/-- `AGE_PREFS[age_band]` / `GENDER_PREFS[gender]` (as an items list). -/
def lookupPrefs (tbl : List (String × List (String × ℚ))) (key : String) :
    List (String × ℚ) :=
  ((tbl.find? (fun e => e.1 = key)).getD ("", [])).2

/-- `choose_age_band()`: weighted choice of a band over the `p` column,
then `randint` over the band's inclusive range. -/
def choose_age_band (g : RNG) (i : Nat) : (String × ℤ) × Nat :=
  let bd := choices1 (AGE_BANDS.map AgeBandInfo.name)
    (AGE_BANDS.map AgeBandInfo.p) "" g i
  let info := (AGE_BANDS.find? (fun b => b.name = bd.1)).getD ⟨"", 0, 0, 0⟩
  let ag := randint info.lo info.hi g bd.2
  ((bd.1, ag.1), ag.2)

/-- `choose_gender()`. -/
def choose_gender (g : RNG) (i : Nat) : String × Nat :=
  choices1 (GENDERS.map Prod.fst) (GENDERS.map Prod.snd) "" g i

/-- `choose_tier_city_state()`: weighted tier choice, then one shared
uniform index `randint(0, 9)` into the tier's city and state lists. -/
def choose_tier_city_state (g : RNG) (i : Nat) :
    (String × String × String) × Nat :=
  let tr := choices1 (TIERS.map TierInfo.name) TIER_PROBS "" g i
  let ix := randint 0 9 g tr.2
  let info := lookupTier tr.1
  ((tr.1, info.cities.getD ix.1.toNat "", info.states.getD ix.1.toNat ""), ix.2)

/-- `choose_price(tier)`: weighted bucket choice over the tier's
`price_weights`, then a uniform draw in the bucket's range, rounded to
2 decimals. -/
def choose_price (tier : String) (g : RNG) (i : Nat) : ℚ × Nat :=
  let bk := choices1 PRICE_BUCKETS (lookupTier tier).price_weights "" g i
  let lh := lookupRange bk.1
  let x := uniform (lh.1 : ℚ) (lh.2 : ℚ) g bk.2
  (round2 x.1, x.2)

/-- `weights[cat] += w` on the insertion-ordered association list that
models the Python `defaultdict(float)`. -/
def addWeight (m : List (String × ℚ)) (cat : String) (w : ℚ) :
    List (String × ℚ) :=
  match m with
  | [] => [(cat, w)]
  | (c, v) :: rest =>
    if c = cat then (c, v + w) :: rest else (c, v) :: addWeight rest cat w

/-- The accumulated weights of `combined_category_weights` before
normalization: age prefs, then gender prefs, then the 0.001 smoothing
for every category. -/
def rawCategoryWeights (age_band gender : String) : List (String × ℚ) :=
  let w0 := (lookupPrefs AGE_PREFS age_band).foldl
    (fun m e => addWeight m e.1 e.2) []
  let w1 := (lookupPrefs GENDER_PREFS gender).foldl
    (fun m e => addWeight m e.1 e.2) w0
  CATEGORIES.foldl (fun m c => addWeight m c.name 0.001) w1

/-- `combined_category_weights(age_band, gender)`: the category list and
the normalized weight list. -/
def combined_category_weights (age_band gender : String) :
    List String × List ℚ :=
  let m := rawCategoryWeights age_band gender
  let total := (m.map Prod.snd).sum
  (m.map Prod.fst, m.map (fun e => e.2 / total))

/-! ## Generation core -/

structure Recommendation where
  product_name : String
  category : String
  brand : String
  price : ℚ
  score : ℚ
deriving Repr, DecidableEq

/-- The `while len(seen_products) < RECS_PER_USER` loop of
`gen_user_row`, with explicit fuel bounding the number of iterations:
draw a category / item / brand, retry on a duplicate `product_name`,
otherwise draw price and score and append the recommendation. -/
def genRecs (cats : List String) (weights : List ℚ) (tier : String) :
    Nat → List String → List Recommendation → RNG → Nat →
    Option (List Recommendation) × Nat
  | 0, _, _, _, i => (none, i)
  | fuel + 1, seen, acc, g, i =>
    if seen.length < RECS_PER_USER then
      let ct := choices1 cats weights "" g i
      let info := lookupCategory ct.1
      let it := choice info.items "" g ct.2
      let br := choice info.brands "" g it.2
      let pn := br.1 ++ " " ++ it.1
      if pn ∈ seen then
        genRecs cats weights tier fuel seen acc g br.2
      else
        let pr := choose_price tier g br.2
        let sc := uniform 0.1 1.0 g pr.2
        genRecs cats weights tier fuel (seen ++ [pn])
          (acc ++ [⟨pn, ct.1, br.1, pr.1, round2 sc.1⟩]) g sc.2
    else (some acc, i)

/-- `f"USER_{idx:06d}"`. -/
def pad6 (idx : Nat) : String :=
  let s := toString idx
  String.mk (List.replicate (6 - s.length) '0') ++ s

structure UserRow where
  user_id : String
  age : ℤ
  gender : String
  state : String
  city : String
  tier : String
  recs : List Recommendation
deriving Repr, DecidableEq

/-- `gen_user_row(idx)`; `none` when the recommendation loop's fuel is
exhausted (the Python loop would still be running). -/
def gen_user_row (fuel : Nat) (idx : Nat) (g : RNG) (i : Nat) :
    Option UserRow × Nat :=
  let user_id := "USER_" ++ pad6 idx
  let ba := choose_age_band g i
  let gd := choose_gender g ba.2
  let tcs := choose_tier_city_state g gd.2
  let cw := combined_category_weights ba.1.1 gd.1
  let rr := genRecs cw.1 cw.2 tcs.1.1 fuel [] [] g tcs.2
  match rr.1 with
  | none => (none, rr.2)
  | some recs =>
    (some ⟨user_id, ba.1.2, gd.1, tcs.1.2.2, tcs.1.2.1, tcs.1.1, recs⟩, rr.2)

/-- `build_header()`. -/
def build_header : List String :=
  ["user_id", "age", "gender", "state", "city", "tier"] ++
    (List.range' 1 RECS_PER_USER).flatMap (fun i =>
      ["product", "category", "brand", "price", "recommendation_score"].map
        (fun field => field ++ "_" ++ toString i))

/-! ## Main entry: the written CSV rows and the exit status -/

/-- One CSV cell. -/
inductive Field : Type
  | str : String → Field
  | int : ℤ → Field
  | rat : ℚ → Field
deriving Repr, DecidableEq

/-- The serialized form of one user row: 6 identity fields followed by the
5 fields of each recommendation block, in order. -/
def rowFields (u : UserRow) : List Field :=
  [Field.str u.user_id, Field.int u.age, Field.str u.gender,
   Field.str u.state, Field.str u.city, Field.str u.tier] ++
    u.recs.flatMap (fun r =>
      [Field.str r.product_name, Field.str r.category, Field.str r.brand,
       Field.rat r.price, Field.rat r.score])

/-- The `for idx in range(1, rows + 1)` writer loop over a list of
indices, threading the RNG cursor. -/
def genAllRows (fuel : Nat) (g : RNG) :
    List Nat → Nat → Option (List (List Field)) × Nat
  | [], i => (some [], i)
  | idx :: rest, i =>
    match gen_user_row fuel idx g i with
    | (none, i') => (none, i')
    | (some u, i') =>
      match genAllRows fuel g rest i' with
      | (none, i'') => (none, i'')
      | (some rs, i'') => (some (rowFields u :: rs), i'')

def headerRow : List Field := build_header.map Field.str

/-- The lines of the written CSV file: the header, then one line per
user. `none` when some user's recommendation loop ran out of fuel. -/
def mainLines (rows fuel : Nat) (g : RNG) : Option (List (List Field)) :=
  match genAllRows fuel g (List.range' 1 rows) 0 with
  | (none, _) => none
  | (some rs, _) => some (headerRow :: rs)

def expected_cols : Nat := build_header.length

/-- Process termination status of `main`. -/
inductive ExitStatus : Type
  | success
  | exitError (msg : String)
  | stopIteration
deriving Repr, DecidableEq

/-- The post-write sanity check: `next(reader)` skips the header,
`next(reader)` reads the first data row (raising `StopIteration` when
there is none), and `sys.exit` reports a column-count mismatch. -/
def integrityCheck (lines : List (List Field)) : ExitStatus :=
  match lines with
  | [] => ExitStatus.stopIteration
  | _hdr :: rest =>
    match rest with
    | [] => ExitStatus.stopIteration
    | first :: _ =>
      if first.length ≠ expected_cols then
        ExitStatus.exitError ("ERROR: expected " ++ toString expected_cols ++
          " columns, got " ++ toString first.length)
      else ExitStatus.success

/-- A full run of `main`: write the file, then run the integrity check.
`none` when generation never terminates (fuel exhausted). -/
def mainRun (rows fuel : Nat) (g : RNG) : Option ExitStatus :=
  (mainLines rows fuel g).map integrityCheck

/-- A fixed example draw stream, used to exercise the generator on
concrete inputs. -/
def Gw : RNG := fun n => (n : ℚ) * 37 / 101

/-! ## Facts about the sampling primitives -/

theorem randomUnit_nonneg (g : RNG) (i : Nat) : 0 ≤ (randomUnit g i).1 :=
  Int.fract_nonneg _

theorem randomUnit_lt_one (g : RNG) (i : Nat) : (randomUnit g i).1 < 1 :=
  Int.fract_lt_one _

theorem bisectRight_le (l : List ℚ) (x : ℚ) : bisectRight l x ≤ l.length :=
  (List.takeWhile_sublist _).length_le

/-- `random.choices` always returns an element of a nonempty population,
whatever the weights. -/
theorem choices1_fst_mem {α : Type} (pop : List α) (w : List ℚ) (d : α)
    (g : RNG) (i : Nat) (h : pop ≠ []) : (choices1 pop w d g i).1 ∈ pop := by
  have hpos : 0 < pop.length := List.length_pos.mpr h
  have hidx : bisectRight ((cumWeights w).take (pop.length - 1))
      ((randomUnit g i).1 * (cumWeights w).getLastD 0) < pop.length :=
    lt_of_le_of_lt
      (le_trans (bisectRight_le _ _) (by simp [List.length_take]))
      (Nat.sub_lt hpos one_pos)
  show pop.getD _ d ∈ pop
  rw [List.getD_eq_getElem?_getD, List.getElem?_eq_getElem hidx]
  exact List.getElem_mem _

/-- `random.randint(a, b)` stays within `[a, b]`. -/
theorem randint_fst_bounds (a b : ℤ) (g : RNG) (i : Nat) (hab : a ≤ b) :
    a ≤ (randint a b g i).1 ∧ (randint a b g i).1 ≤ b := by
  have h0 : (0 : ℚ) ≤ (randomUnit g i).1 := randomUnit_nonneg g i
  have h1 : (randomUnit g i).1 < 1 := randomUnit_lt_one g i
  have hspan : (0 : ℚ) ≤ (b : ℚ) - (a : ℚ) + 1 := by
    have : (a : ℚ) ≤ (b : ℚ) := by exact_mod_cast hab
    linarith
  constructor
  · show a ≤ a + ⌊(randomUnit g i).1 * ((b : ℚ) - (a : ℚ) + 1)⌋
    have : (0 : ℤ) ≤ ⌊(randomUnit g i).1 * ((b : ℚ) - (a : ℚ) + 1)⌋ :=
      Int.floor_nonneg.mpr (mul_nonneg h0 hspan)
    omega
  · show a + ⌊(randomUnit g i).1 * ((b : ℚ) - (a : ℚ) + 1)⌋ ≤ b
    have hlt : (randomUnit g i).1 * ((b : ℚ) - (a : ℚ) + 1) < (b : ℚ) - a + 1 := by
      have hspan' : (0 : ℚ) < (b : ℚ) - (a : ℚ) + 1 := by
        have : (a : ℚ) ≤ (b : ℚ) := by exact_mod_cast hab
        linarith
      calc (randomUnit g i).1 * ((b : ℚ) - (a : ℚ) + 1)
          < 1 * ((b : ℚ) - (a : ℚ) + 1) := by
            exact mul_lt_mul_of_pos_right h1 hspan'
        _ = (b : ℚ) - a + 1 := one_mul _
    have : ⌊(randomUnit g i).1 * ((b : ℚ) - (a : ℚ) + 1)⌋ < b - a + 1 := by
      have := Int.floor_lt.mpr (by exact_mod_cast hlt)
      exact_mod_cast this
    omega

/-- `random.choice` returns an element of a nonempty sequence. -/
theorem choice_fst_mem {α : Type} (l : List α) (d : α) (g : RNG) (i : Nat)
    (h : l ≠ []) : (choice l d g i).1 ∈ l := by
  have hpos : 0 < l.length := List.length_pos.mpr h
  have h0 : (0 : ℚ) ≤ (randomUnit g i).1 := randomUnit_nonneg g i
  have h1 : (randomUnit g i).1 < 1 := randomUnit_lt_one g i
  have hlt : (randomUnit g i).1 * (l.length : ℚ) < (l.length : ℚ) := by
    have : (0 : ℚ) < (l.length : ℚ) := by exact_mod_cast hpos
    calc (randomUnit g i).1 * (l.length : ℚ)
        < 1 * (l.length : ℚ) := mul_lt_mul_of_pos_right h1 this
      _ = (l.length : ℚ) := one_mul _
  have hfl : ⌊(randomUnit g i).1 * (l.length : ℚ)⌋ < (l.length : ℤ) :=
    Int.floor_lt.mpr (by exact_mod_cast hlt)
  have hidx : (⌊(randomUnit g i).1 * (l.length : ℚ)⌋).toNat < l.length := by
    omega
  show l.getD _ d ∈ l
  rw [List.getD_eq_getElem?_getD, List.getElem?_eq_getElem hidx]
  exact List.getElem_mem _

/-- `random.uniform(a, b)` stays within `[a, b]`. -/
theorem uniform_fst_bounds (a b : ℚ) (g : RNG) (i : Nat) (hab : a ≤ b) :
    a ≤ (uniform a b g i).1 ∧ (uniform a b g i).1 ≤ b := by
  have h0 : (0 : ℚ) ≤ (randomUnit g i).1 := randomUnit_nonneg g i
  have h1 : (randomUnit g i).1 < 1 := randomUnit_lt_one g i
  constructor
  · show a ≤ a + (b - a) * (randomUnit g i).1
    nlinarith
  · show a + (b - a) * (randomUnit g i).1 ≤ b
    nlinarith

/-- `pyRound` never strays outside `[⌊q⌋, ⌈q⌉]`. -/
theorem pyRound_bounds (q : ℚ) : ⌊q⌋ ≤ pyRound q ∧ pyRound q ≤ ⌈q⌉ := by
  have hceil : 0 < q - (⌊q⌋ : ℚ) → ⌊q⌋ + 1 ≤ ⌈q⌉ := fun hlt => by
    have : ⌊q⌋ < ⌈q⌉ := Int.lt_ceil.mpr (by linarith)
    omega
  unfold pyRound
  split_ifs with h1 h2 h3
  · exact ⟨le_refl _, Int.floor_le_ceil q⟩
  · exact ⟨by omega, hceil (by linarith)⟩
  · exact ⟨le_refl _, Int.floor_le_ceil q⟩
  · exact ⟨by omega, hceil (by linarith)⟩

/-- Rounding to 2 decimals keeps a value between integer bounds. -/
theorem round2_bounds (a b : ℤ) (x : ℚ) (ha : (a : ℚ) ≤ x) (hb : x ≤ (b : ℚ)) :
    (a : ℚ) ≤ round2 x ∧ round2 x ≤ (b : ℚ) := by
  obtain ⟨hlo, hhi⟩ := pyRound_bounds (x * 100)
  have h1 : 100 * a ≤ ⌊x * 100⌋ := by
    refine Int.le_floor.mpr ?_
    push_cast
    linarith
  have h2 : ⌈x * 100⌉ ≤ 100 * b := by
    refine Int.ceil_le.mpr ?_
    push_cast
    linarith
  have hplo : 100 * a ≤ pyRound (x * 100) := le_trans h1 hlo
  have hphi : pyRound (x * 100) ≤ 100 * b := le_trans hhi h2
  unfold round2
  constructor
  · rw [le_div_iff₀ (by norm_num : (0:ℚ) < 100)]
    have h : ((100 * a : ℤ) : ℚ) ≤ (pyRound (x * 100) : ℚ) := by
      exact_mod_cast hplo
    push_cast at h
    linarith
  · rw [div_le_iff₀ (by norm_num : (0:ℚ) < 100)]
    have h : ((pyRound (x * 100) : ℤ) : ℚ) ≤ ((100 * b : ℤ) : ℚ) := by
      exact_mod_cast hphi
    push_cast at h
    linarith

/-! ## The recommendation loop -/

/-- Loop invariant of the uniqueness-retry loop: whenever it returns, it
returns exactly `RECS_PER_USER` recommendations whose product names are
pairwise distinct. -/
theorem genRecs_sound (cats : List String) (weights : List ℚ) (tier : String) :
    ∀ (fuel : Nat) (seen : List String) (acc : List Recommendation) (g : RNG)
      (i : Nat) (recs : List Recommendation),
      seen = acc.map Recommendation.product_name → seen.Nodup →
      seen.length ≤ RECS_PER_USER →
      (genRecs cats weights tier fuel seen acc g i).1 = some recs →
      recs.length = RECS_PER_USER ∧
        (recs.map Recommendation.product_name).Nodup := by
  intro fuel
  induction fuel with
  | zero =>
    intro seen acc g i recs _ _ _ h
    simp [genRecs] at h
  | succ fuel ih =>
    intro seen acc g i recs hseen hnd hle h
    rw [genRecs] at h
    by_cases hcond : seen.length < RECS_PER_USER
    · rw [if_pos hcond] at h
      dsimp only at h
      split at h
      · exact ih seen acc g _ recs hseen hnd hle h
      · rename_i hmem
        refine ih _ _ g _ recs ?_ ?_ ?_ h
        · simp [List.map_append, hseen]
        · simp [List.nodup_append, hnd, hmem]
        · simp only [List.length_append, List.length_singleton]
          omega
    · rw [if_neg hcond] at h
      dsimp only at h
      obtain rfl : acc = recs := Option.some_injective _ h
      have hlen : acc.length = seen.length := by
        rw [hseen, List.length_map]
      constructor
      · rw [hlen]
        omega
      · rw [← hseen]
        exact hnd

/-- Every successfully generated user row carries exactly
`RECS_PER_USER` recommendations with pairwise-distinct product names. -/
theorem gen_user_row_recs (fuel idx : Nat) (g : RNG) (i : Nat) (u : UserRow)
    (h : (gen_user_row fuel idx g i).1 = some u) :
    u.recs.length = RECS_PER_USER ∧
      (u.recs.map Recommendation.product_name).Nodup := by
  unfold gen_user_row at h
  dsimp only at h
  split at h
  · simp at h
  · rename_i recs hrecs
    obtain rfl : _ = u := Option.some_injective _ h
    exact genRecs_sound _ _ _ fuel [] [] g _ recs rfl List.nodup_nil
      (Nat.zero_le _) hrecs

theorem recBlocks_length (rs : List Recommendation) :
    (rs.flatMap (fun r =>
      [Field.str r.product_name, Field.str r.category, Field.str r.brand,
       Field.rat r.price, Field.rat r.score])).length = 5 * rs.length := by
  induction rs with
  | nil => rfl
  | cons r rs ih =>
    simp only [List.flatMap_cons, List.length_append, List.length_cons,
      List.length_nil, ih]
    ring

theorem rowFields_length (u : UserRow) :
    (rowFields u).length = 6 + 5 * u.recs.length := by
  simp only [rowFields, List.length_append, List.length_cons, List.length_nil,
    recBlocks_length u.recs]

/-- Every successfully generated batch has one serialized row per index
and every row has the full `6 + 5 * RECS_PER_USER` fields. -/
theorem genAllRows_sound (fuel : Nat) (g : RNG) :
    ∀ (idxs : List Nat) (i : Nat) (rs : List (List Field)),
      (genAllRows fuel g idxs i).1 = some rs →
      rs.length = idxs.length ∧
        ∀ r ∈ rs, r.length = 6 + 5 * RECS_PER_USER := by
  intro idxs
  induction idxs with
  | nil =>
    intro i rs h
    obtain rfl : [] = rs := by simpa [genAllRows] using h
    exact ⟨rfl, by simp⟩
  | cons idx rest ih =>
    intro i rs h
    rw [genAllRows] at h
    split at h
    · simp at h
    · rename_i u i' hu
      split at h
      · simp at h
      · rename_i rs' i'' hrs
        have hfst : (gen_user_row fuel idx g i).1 = some u := by rw [hu]
        have hrsf : (genAllRows fuel g rest i').1 = some rs' := by rw [hrs]
        obtain rfl : rowFields u :: rs' = rs := by simpa using h
        obtain ⟨hlen, hall⟩ := ih i' rs' hrsf
        have hurecs := gen_user_row_recs fuel idx g i u hfst
        refine ⟨by simp [hlen], ?_⟩
        intro r hr
        rcases List.mem_cons.mp hr with hr | hr
        · rw [hr, rowFields_length u, hurecs.1]
        · exact hall r hr

/-! ## Claim theorems -/

/-- C1: For every generated user row, the recommendation list contains
exactly N = 10 (`RECS_PER_USER`) recommendations, and the `product_name`
values within that row are pairwise distinct. -/
theorem claim_C1 (fuel idx : Nat) (g : RNG) (i : Nat) (u : UserRow)
    (h : (gen_user_row fuel idx g i).1 = some u) :
    RECS_PER_USER = 10 ∧ u.recs.length = RECS_PER_USER ∧
      (u.recs.map Recommendation.product_name).Nodup :=
  ⟨rfl, (gen_user_row_recs fuel idx g i u h).1,
    (gen_user_row_recs fuel idx g i u h).2⟩

/-- A user row actually produced by the generator on the example
stream. -/
def uW : UserRow :=
  ((gen_user_row 30 1 Gw 0).1).getD ⟨"", 0, "", "", "", "", []⟩

/-- Witness for C1 at the concrete stream `Gw`. -/
theorem claim_C1_witness :
    RECS_PER_USER = 10 ∧ uW.recs.length = RECS_PER_USER ∧
      (uW.recs.map Recommendation.product_name).Nodup :=
  claim_C1 30 1 Gw 0 uW (by with_unfolding_all rfl)

/-- C3: Determinism: for every row count (and fuel), two runs of the
generator drawing from the same seeded stream produce identical output
lines and identical exit behaviour; the embedding makes the output a
function of the row count and the single random stream alone. -/
theorem claim_C3 (rows fuel : Nat) (g1 g2 : RNG) (h : g1 = g2) :
    mainLines rows fuel g1 = mainLines rows fuel g2 ∧
      mainRun rows fuel g1 = mainRun rows fuel g2 := by
  subst h
  exact ⟨rfl, rfl⟩

/-- Witness for C3 at the concrete stream `Gw`. -/
theorem claim_C3_witness :
    mainLines 5 30 Gw = mainLines 5 30 Gw ∧
      mainRun 5 30 Gw = mainRun 5 30 Gw :=
  claim_C3 5 30 Gw Gw rfl

/-- C9: Requesting `rows = 0` produces an output file containing only
the header line, for every draw stream and every fuel bound. -/
theorem claim_C9 (fuel : Nat) (g : RNG) :
    mainLines 0 fuel g = some [headerRow] := rfl

/-- C10: When the run produces zero data rows (`rows = 0`), the
post-write integrity check's read of the first data row raises an
uncaught `StopIteration` (abnormal, non-zero termination), even though
the written file consists of the well-formed header line alone. -/
theorem claim_C10 (fuel : Nat) (g : RNG) :
    mainRun 0 fuel g = some ExitStatus.stopIteration ∧
      mainLines 0 fuel g = some [headerRow] :=
  ⟨rfl, rfl⟩

/-- C5: The output file has exactly `rows + 1` lines (one header plus one
line per user), the header fields are `user_id, age, gender, state, city,
tier` followed by N blocks of
`(product_i, category_i, brand_i, price_i, recommendation_score_i)` in
fixed order, and every data row has exactly `6 + 5 * N` fields. -/
theorem claim_C5 (rows fuel : Nat) (g : RNG) (lines : List (List Field))
    (h : mainLines rows fuel g = some lines) :
    lines.length = rows + 1 ∧
    lines.head? = some
      (["user_id", "age", "gender", "state", "city", "tier",
        "product_1", "category_1", "brand_1", "price_1", "recommendation_score_1",
        "product_2", "category_2", "brand_2", "price_2", "recommendation_score_2",
        "product_3", "category_3", "brand_3", "price_3", "recommendation_score_3",
        "product_4", "category_4", "brand_4", "price_4", "recommendation_score_4",
        "product_5", "category_5", "brand_5", "price_5", "recommendation_score_5",
        "product_6", "category_6", "brand_6", "price_6", "recommendation_score_6",
        "product_7", "category_7", "brand_7", "price_7", "recommendation_score_7",
        "product_8", "category_8", "brand_8", "price_8", "recommendation_score_8",
        "product_9", "category_9", "brand_9", "price_9", "recommendation_score_9",
        "product_10", "category_10", "brand_10", "price_10",
        "recommendation_score_10"].map Field.str) ∧
    ∀ r ∈ lines.tail, r.length = 6 + 5 * RECS_PER_USER := by
  unfold mainLines at h
  split at h
  · simp at h
  · rename_i rs i'' hrs
    obtain rfl : headerRow :: rs = lines := by simpa using h
    have hrsf : (genAllRows fuel g (List.range' 1 rows) 0).1 = some rs := by
      rw [hrs]
    obtain ⟨hlen, hall⟩ := genAllRows_sound fuel g _ 0 rs hrsf
    refine ⟨?_, ?_, ?_⟩
    · simp [hlen]
    · rfl
    · intro r hr
      exact hall r hr

/-- The header-plus-one-row output actually produced on the example
stream. -/
def linesW : List (List Field) := (mainLines 1 30 Gw).getD []

/-- Witness for C5 at the concrete stream `Gw` with `rows = 1`. -/
theorem claim_C5_witness :
    linesW.length = 1 + 1 ∧
    linesW.head? = some
      (["user_id", "age", "gender", "state", "city", "tier",
        "product_1", "category_1", "brand_1", "price_1", "recommendation_score_1",
        "product_2", "category_2", "brand_2", "price_2", "recommendation_score_2",
        "product_3", "category_3", "brand_3", "price_3", "recommendation_score_3",
        "product_4", "category_4", "brand_4", "price_4", "recommendation_score_4",
        "product_5", "category_5", "brand_5", "price_5", "recommendation_score_5",
        "product_6", "category_6", "brand_6", "price_6", "recommendation_score_6",
        "product_7", "category_7", "brand_7", "price_7", "recommendation_score_7",
        "product_8", "category_8", "brand_8", "price_8", "recommendation_score_8",
        "product_9", "category_9", "brand_9", "price_9", "recommendation_score_9",
        "product_10", "category_10", "brand_10", "price_10",
        "recommendation_score_10"].map Field.str) ∧
    ∀ r ∈ linesW.tail, r.length = 6 + 5 * RECS_PER_USER :=
  claim_C5 1 30 Gw linesW (by with_unfolding_all rfl)

/-- C4: After writing, the integrity check re-opens the output and reads
the first data row; the run reports a descriptive error (non-zero exit)
when that row's field count differs from the expected
`6 + 5 * N = expected_cols` count, and exits successfully (code 0) on
any completed run with at least one data row. -/
theorem claim_C4 :
    (∀ (hdr row : List Field) (rest : List (List Field)),
        row.length ≠ expected_cols →
        integrityCheck (hdr :: row :: rest) =
          ExitStatus.exitError ("ERROR: expected " ++ toString expected_cols ++
            " columns, got " ++ toString row.length)) ∧
    (∀ (rows fuel : Nat) (g : RNG) (st : ExitStatus), 1 ≤ rows →
        mainRun rows fuel g = some st → st = ExitStatus.success) := by
  constructor
  · intro hdr row rest hne
    simp only [integrityCheck]
    rw [if_pos hne]
  · intro rows fuel g st hrows hrun
    unfold mainRun at hrun
    unfold mainLines at hrun
    split at hrun
    · simp at hrun
    · rename_i rs i'' hrs
      have hrsf : (genAllRows fuel g (List.range' 1 rows) 0).1 = some rs := by
        rw [hrs]
      obtain ⟨hlen, hall⟩ := genAllRows_sound fuel g _ 0 rs hrsf
      have hlen' : rs.length = rows := by simpa using hlen
      cases rs with
      | nil =>
        rw [← hlen'] at hrows
        simp at hrows
      | cons r rest' =>
        have hr : r.length = 6 + 5 * RECS_PER_USER := hall r (by simp)
        have hst : integrityCheck (headerRow :: r :: rest') = st := by
          simpa using hrun
        rw [← hst]
        simp only [integrityCheck]
        rw [if_neg (by rw [hr]; decide)]

/-- Witness for C4: the mismatch branch at a concrete malformed file, and
the success branch on the concrete completed run over `Gw`. -/
theorem claim_C4_witness :
    (integrityCheck [headerRow, []] =
      ExitStatus.exitError ("ERROR: expected " ++ toString expected_cols ++
        " columns, got " ++ toString (List.length ([] : List Field)))) ∧
    ExitStatus.success = ExitStatus.success :=
  ⟨claim_C4.1 headerRow [] [] (by decide),
    claim_C4.2 1 30 Gw ExitStatus.success (by decide)
      (by with_unfolding_all rfl)⟩

/-- A tier record found in `TIERS` is returned exactly by name lookup
(the three tier names are distinct). -/
theorem lookupTier_name (info : TierInfo) (hinfo : info ∈ TIERS) :
    lookupTier info.name = info := by
  fin_cases hinfo <;> rfl

/-- C6: For every tier, `choose_tier_city_state` returns a (city, state)
pair taken from the same uniformly random index of the selected tier's
cities and states lists, so the returned city and state always
correspond to each other. -/
theorem claim_C6 (g : RNG) (i : Nat) :
    ∃ info ∈ TIERS, ∃ j : Nat, j < 10 ∧
      (choose_tier_city_state g i).1.1 = info.name ∧
      (choose_tier_city_state g i).1.2.1 = info.cities.getD j "" ∧
      (choose_tier_city_state g i).1.2.2 = info.states.getD j "" := by
  have htier := choices1_fst_mem (TIERS.map TierInfo.name) TIER_PROBS "" g i
    (by simp [TIERS])
  obtain ⟨info, hinfo, hname⟩ := List.mem_map.mp htier
  obtain ⟨h0, h9⟩ := randint_fst_bounds 0 9 g
    (choices1 (TIERS.map TierInfo.name) TIER_PROBS "" g i).2 (by norm_num)
  refine ⟨info, hinfo,
    ((randint 0 9 g
      (choices1 (TIERS.map TierInfo.name) TIER_PROBS "" g i).2).1).toNat,
    by omega, ?_, ?_, ?_⟩
  · exact hname.symm
  · show (lookupTier
        (choices1 (TIERS.map TierInfo.name) TIER_PROBS "" g i).1).cities.getD
      _ "" = _
    rw [← hname, lookupTier_name info hinfo]
  · show (lookupTier
        (choices1 (TIERS.map TierInfo.name) TIER_PROBS "" g i).1).states.getD
      _ "" = _
    rw [← hname, lookupTier_name info hinfo]

theorem price_ranges_le :
    ∀ b ∈ PRICE_BUCKETS, (lookupRange b).1 ≤ (lookupRange b).2 := by decide

/-- C7: For every tier and every possible random draw, `choose_price`
selects one of the four price buckets via the tier's weight vector, and
the returned (2-decimal-rounded) value lies within that bucket's
inclusive `[low, high]` range. -/
theorem claim_C7 (tier : String) (g : RNG) (i : Nat) :
    (choices1 PRICE_BUCKETS (lookupTier tier).price_weights "" g i).1
      ∈ PRICE_BUCKETS ∧
    (((lookupRange
        (choices1 PRICE_BUCKETS (lookupTier tier).price_weights "" g i).1).1 : ℚ)
      ≤ (choose_price tier g i).1 ∧
      (choose_price tier g i).1 ≤
        ((lookupRange
          (choices1 PRICE_BUCKETS (lookupTier tier).price_weights "" g i).1).2 : ℚ)) := by
  set bk := choices1 PRICE_BUCKETS (lookupTier tier).price_weights "" g i with hbk
  have hmem : bk.1 ∈ PRICE_BUCKETS := by
    rw [hbk]
    exact choices1_fst_mem PRICE_BUCKETS (lookupTier tier).price_weights "" g i
      (by simp [PRICE_BUCKETS])
  have hab : (lookupRange bk.1).1 ≤ (lookupRange bk.1).2 :=
    price_ranges_le bk.1 hmem
  have habq : ((lookupRange bk.1).1 : ℚ) ≤ ((lookupRange bk.1).2 : ℚ) := by
    exact_mod_cast hab
  obtain ⟨hu1, hu2⟩ := uniform_fst_bounds ((lookupRange bk.1).1 : ℚ)
    ((lookupRange bk.1).2 : ℚ) g bk.2 habq
  obtain ⟨hr1, hr2⟩ := round2_bounds (lookupRange bk.1).1 (lookupRange bk.1).2
    ((uniform ((lookupRange bk.1).1 : ℚ) ((lookupRange bk.1).2 : ℚ) g bk.2).1)
    hu1 hu2
  exact ⟨hmem, hr1, hr2⟩

/-- C2: For every age band and every gender,
`combined_category_weights` returns a category list containing every
known category; every accumulated weight is at least the 0.001 smoothing
constant before normalization; and the normalized weights are strictly
positive and sum to 1 (a valid probability distribution). -/
theorem claim_C2 :
    ∀ ab ∈ AGE_PREFS.map Prod.fst, ∀ gd ∈ GENDER_PREFS.map Prod.fst,
      (∀ c ∈ CATEGORIES.map CategoryInfo.name,
        c ∈ (combined_category_weights ab gd).1) ∧
      (∀ e ∈ rawCategoryWeights ab gd, 1/1000 ≤ e.2) ∧
      (∀ w ∈ (combined_category_weights ab gd).2, 0 < w) ∧
      ((combined_category_weights ab gd).2).sum = 1 := by
  with_unfolding_all exact of_decide_eq_true rfl

/-- Witness for C2 at the age band `18-25` and gender `Male`. -/
theorem claim_C2_witness :
    (∀ c ∈ CATEGORIES.map CategoryInfo.name,
      c ∈ (combined_category_weights "18-25" "Male").1) ∧
    (∀ e ∈ rawCategoryWeights "18-25" "Male", 1/1000 ≤ e.2) ∧
    (∀ w ∈ (combined_category_weights "18-25" "Male").2, 0 < w) ∧
    ((combined_category_weights "18-25" "Male").2).sum = 1 :=
  claim_C2 "18-25" (by decide) "Male" (by decide)

set_option maxRecDepth 8000 in
/-- C8: Catalog-sizing invariant: every category in the static catalog
offers at least N = 10 distinct brand-item product names, so the
per-user uniqueness retry loop always has N distinct products
available. -/
theorem claim_C8 : ∀ c ∈ CATEGORIES,
    RECS_PER_USER ≤ ((c.brands.flatMap
      (fun b => c.items.map (fun it => b ++ " " ++ it))).dedup).length := by
  decide

set_option maxRecDepth 8000 in
/-- Witness for C8 at the first catalog entry (Electronics). -/
theorem claim_C8_witness :
    RECS_PER_USER ≤ (((CATEGORIES.getD 0 ⟨"", [], []⟩).brands.flatMap
      (fun b => (CATEGORIES.getD 0 ⟨"", [], []⟩).items.map
        (fun it => b ++ " " ++ it))).dedup).length :=
  claim_C8 (CATEGORIES.getD 0 ⟨"", [], []⟩) (by decide)

end GptDataGen
